import Mathlib

/-!
Verification development for the x402 DeFi yield API.

Shallow embedding of the payment middleware (`src/server.ts`), the
portfolio/risk analytics (`src/portfolio.ts`) and the yield aggregation
engine (`src/yield.ts`).  Numbers are modelled as exact rationals; where
JavaScript division can produce NaN or Infinity, an extended number type
`JsNumE` is used.  Wall-clock fields (`timestamp`, `Date.now()`) are
omitted from result records or passed in as an explicit `now` argument,
since they carry no specification content.  External collaborators
(JSON parser, Solana RPC, provider HTTP APIs) are passed in as explicit
arguments holding the result of the corresponding call, with `Except`
capturing a thrown exception.
-/

/-- Model of a JavaScript runtime value, as produced by `JSON.parse` and
consumed by the dynamically-typed field accesses in `parseX402Header`.
JSON arrays are modelled as objects with index keys.  -/
inductive JsValue where
  | null
  | undefined
  | bool (b : Bool)
  | num (q : ℚ)
  | str (s : String)
  | obj (fields : List (String × JsValue))

/-- JavaScript truthiness: `null`, `undefined`, `false`, `0` and the empty
string are falsy; objects are always truthy. -/
def jsTruthy : JsValue → Bool
  | JsValue.null => false
  | JsValue.undefined => false
  | JsValue.bool b => b
  | JsValue.num q => decide (q ≠ 0)
  | JsValue.str s => decide (s ≠ "")
  | JsValue.obj _ => true

/-- JavaScript `a || b`. -/
def jsOr (a b : JsValue) : JsValue := if jsTruthy a then a else b

/-- JavaScript property access `v.key`: a missing key on an object, or any
access on a primitive wrapper, yields `undefined`.  (Access on `null` or
`undefined` throws; callers of `getField` handle those cases first.) -/
def getField : JsValue → String → JsValue
  | JsValue.obj fields, key =>
    match fields.lookup key with
    | some v => v
    | none => JsValue.undefined
  | _, _ => JsValue.undefined

/-- Fragment of JavaScript `ToNumber` on strings used by the relational
comparison: the empty string is 0, decimal integer strings (with optional
sign) are their value, anything else is treated as NaN. -/
def jsStringToNumber (s : String) : Option ℚ :=
  if s = "" then some 0
  else
    let (sign, digits) :=
      match s.data with
      | '-' :: rest => ((-1 : ℚ), rest)
      | '+' :: rest => ((1 : ℚ), rest)
      | cs => ((1 : ℚ), cs)
    if digits = [] then none
    else if digits.all Char.isDigit then
      some (sign * (digits.foldl (fun acc c => acc * 10 + (c.toNat - 48)) (0 : ℕ) : ℕ))
    else none

/-- JavaScript `x < y` where `y` is a number: `undefined` compares as NaN
(always false), `null` and booleans coerce to numbers, non-numeric strings
are NaN, plain objects coerce to a non-numeric string hence NaN. -/
def jsLt (a : JsValue) (b : ℚ) : Bool :=
  match a with
  | JsValue.num q => decide (q < b)
  | JsValue.null => decide ((0 : ℚ) < b)
  | JsValue.undefined => false
  | JsValue.bool bb => decide ((if bb then (1 : ℚ) else 0) < b)
  | JsValue.str s =>
    match jsStringToNumber s with
    | some q => decide (q < b)
    | none => false
  | JsValue.obj _ => false

/-- JavaScript strict equality `v !== w` (negated by the caller) against a
string constant: true exactly when `v` is a string with the same contents. -/
def jsStrictEqStr (a : JsValue) (w : String) : Bool :=
  match a with
  | JsValue.str s => decide (s = w)
  | _ => false

/-- The `X402PaymentHeader` record built by `parseX402Header`
(src/server.ts lines 37-44); at runtime each field holds whatever
JavaScript value the untrusted JSON supplied, so fields are `JsValue`s. -/
structure X402PaymentHeader where
  amount : JsValue
  token : JsValue
  sender : JsValue
  recipient : JsValue
  signature : JsValue
  timestamp : JsValue

/-- Embedding of `parseX402Header` (src/server.ts lines 49-66).  `JSON.parse`
failure is handled by the caller (`requirePayment` below) via the abstract
parser; here the argument is the parsed value.  Accessing a property of the
literal `null` (or `undefined`) throws a TypeError which the source catches,
returning null, hence `none`.  Field values are filled from the first truthy
alias, mirroring `paymentData.amount || paymentData.value` etc. -/
def parseX402Header (now : ℚ) (paymentData : JsValue) : Option X402PaymentHeader :=
  match paymentData with
  | JsValue.null => none
  | JsValue.undefined => none
  | v =>
    some
      { amount := jsOr (getField v "amount") (getField v "value")
        token := jsOr (getField v "token") (getField v "mint")
        sender := jsOr (jsOr (getField v "sender") (getField v "from")) (getField v "payer")
        recipient := jsOr (jsOr (getField v "recipient") (getField v "to")) (getField v "payee")
        signature := jsOr (jsOr (getField v "signature") (getField v "txSignature")) (getField v "tx")
        timestamp := jsOr (getField v "timestamp") (JsValue.num now) }

/-- The terminal decision of the payment middleware for one request. -/
inductive Outcome where
  | Authorized
  | MissingProof
  | MalformedProof
  | InsufficientAmount
  | WrongRecipient
  | ChainVerificationFailed
deriving DecidableEq

/-- HTTP status attached to each middleware outcome by `requirePayment`
(src/server.ts lines 150-217); `Authorized` calls `next()`, whose handlers
respond 200 on success. -/
def statusOf : Outcome → Nat
  | Outcome.Authorized => 200
  | Outcome.MissingProof => 402
  | Outcome.MalformedProof => 400
  | Outcome.InsufficientAmount => 402
  | Outcome.WrongRecipient => 400
  | Outcome.ChainVerificationFailed => 402

/-- Embedding of the middleware body of `requirePayment` (src/server.ts
lines 138-227).  `verify` stands for `verifyPayment` (a ledger read),
`jsonParse` for `JSON.parse` (`none` = throw), `mockMode` for
`req.query.mock === 'true'`, and `paymentHeader` for the raw
`x-402-payment` header (`none` = absent; the empty string is falsy in the
`if (!paymentHeader)` test and is likewise treated as missing). -/
def requirePayment (verify : JsValue → ℚ → String → Bool)
    (jsonParse : String → Option JsValue)
    (recipientWallet : String) (now : ℚ)
    (requiredAmount : ℚ) (mockMode : Bool)
    (paymentHeader : Option String) : Outcome :=
  if mockMode then Outcome.Authorized
  else
    match paymentHeader with
    | none => Outcome.MissingProof
    | some h =>
      if h = "" then Outcome.MissingProof
      else
        match jsonParse h with
        | none => Outcome.MalformedProof
        | some v =>
          match parseX402Header now v with
          | none => Outcome.MalformedProof
          | some payment =>
            if jsLt payment.amount requiredAmount then Outcome.InsufficientAmount
            else if !(jsStrictEqStr payment.recipient recipientWallet) then Outcome.WrongRecipient
            else if verify payment.signature requiredAmount recipientWallet then Outcome.Authorized
            else Outcome.ChainVerificationFailed

/-- A `preTokenBalances`/`postTokenBalances` entry of a fetched Solana
transaction, with `Number(uiTokenAmount.amount)` already taken. -/
structure TokenBalanceRec where
  accountIndex : Nat
  mint : String
  uiTokenAmountValue : ℚ
deriving DecidableEq

/-- The `tx.meta` object of a fetched transaction: `err` is true when the
execution outcome field is non-null. -/
structure TxMeta where
  err : Bool
  postTokenBalances : List TokenBalanceRec
  preTokenBalances : List TokenBalanceRec
deriving DecidableEq

/-- A fetched transaction: optional meta, and the resolved account key for
each balance-record index (`tx.transaction.message.getAccountKeys().get`). -/
structure TxRecord where
  meta : Option TxMeta
  accountKeys : Nat → Option String

/-- `amountReceived` as computed in `verifyPayment` (src/server.ts lines
112-116): post balance minus the matching pre balance, a missing
pre-record counting as 0. -/
def amountReceived (meta : TxMeta) (post : TokenBalanceRec) : ℚ :=
  post.uiTokenAmountValue -
    (match meta.preTokenBalances.find? (fun pb => pb.accountIndex == post.accountIndex) with
     | some pb => pb.uiTokenAmountValue
     | none => 0)

/-- Does a post-balance record carry the configured asset into the
recipient's associated token account?  (`postBalance.mint === USDC_MINT`
and `accountKey && accountKey.equals(recipientAta)`.) -/
def postMatchesRecipientAsset (usdcMint : String) (keys : Nat → Option String)
    (recipientAta : String) (post : TokenBalanceRec) : Bool :=
  post.mint == usdcMint &&
    (match keys post.accountIndex with
     | some k => k == recipientAta
     | none => false)

/-- JavaScript `Math.abs` on a finite number. -/
def jsAbsQ (q : ℚ) : ℚ := if q < 0 then -q else q

/-- JavaScript `Math.max` of two finite numbers. -/
def jsMaxQ (a b : ℚ) : ℚ := if a < b then b else a

/-- The in-loop tolerance test of `verifyPayment` (src/server.ts line 119):
`Math.abs(amountReceived - expectedAmount) < 1000`. -/
def postWithinTolerance (expectedAmount : ℚ) (meta : TxMeta) (post : TokenBalanceRec) : Bool :=
  decide (jsAbsQ (amountReceived meta post - expectedAmount) < 1000)

/-- Embedding of `verifyPayment` (src/server.ts lines 71-133).  `txResult`
is the result of `connection.getTransaction(signature, ...)` and
`ataResult` the result of resolving the recipient's associated token
account (`new PublicKey(expectedRecipient)` + `getAssociatedTokenAddress`);
`Except.error` models a thrown exception caught by the surrounding
try/catch, which returns false.  The balance-record loop can only return
true early; when it finds no in-tolerance match the function logs a warning
and returns true anyway ("For demo purposes, allow if transaction
succeeded", line 128). -/
def verifyPayment (txResult : Except String (Option TxRecord))
    (ataResult : Except String String)
    (usdcMint : String) (expectedAmount : ℚ) : Bool :=
  match txResult with
  | Except.error _ => false
  | Except.ok none => false
  | Except.ok (some tx) =>
    match tx.meta with
    | none => false
    | some meta =>
      if meta.err then false
      else
        match ataResult with
        | Except.error _ => false
        | Except.ok recipientAta =>
          if meta.postTokenBalances.any (fun post =>
              postMatchesRecipientAsset usdcMint tx.accountKeys recipientAta post &&
              postWithinTolerance expectedAmount meta post)
          then true
          else true

/-- Extended JavaScript number: an exact rational, or one of the three
non-finite IEEE values that JavaScript division and `Math.max` can produce. -/
inductive JsNumE where
  | nan
  | inf
  | ninf
  | fin (q : ℚ)
deriving DecidableEq

/-- JavaScript `<` on extended numbers: any comparison with NaN is false. -/
def jsLtE : JsNumE → JsNumE → Bool
  | JsNumE.nan, _ => false
  | _, JsNumE.nan => false
  | JsNumE.ninf, JsNumE.ninf => false
  | JsNumE.ninf, _ => true
  | _, JsNumE.ninf => false
  | JsNumE.inf, _ => false
  | JsNumE.fin _, JsNumE.inf => true
  | JsNumE.fin a, JsNumE.fin b => decide (a < b)

/-- JavaScript addition on extended numbers. -/
def jsAdd : JsNumE → JsNumE → JsNumE
  | JsNumE.nan, _ => JsNumE.nan
  | _, JsNumE.nan => JsNumE.nan
  | JsNumE.inf, JsNumE.ninf => JsNumE.nan
  | JsNumE.ninf, JsNumE.inf => JsNumE.nan
  | JsNumE.inf, _ => JsNumE.inf
  | _, JsNumE.inf => JsNumE.inf
  | JsNumE.ninf, _ => JsNumE.ninf
  | _, JsNumE.ninf => JsNumE.ninf
  | JsNumE.fin a, JsNumE.fin b => JsNumE.fin (a + b)

/-- JavaScript multiplication on extended numbers (`±∞ × 0 = NaN`). -/
def jsMul : JsNumE → JsNumE → JsNumE
  | JsNumE.nan, _ => JsNumE.nan
  | _, JsNumE.nan => JsNumE.nan
  | JsNumE.inf, JsNumE.inf => JsNumE.inf
  | JsNumE.inf, JsNumE.ninf => JsNumE.ninf
  | JsNumE.ninf, JsNumE.inf => JsNumE.ninf
  | JsNumE.ninf, JsNumE.ninf => JsNumE.inf
  | JsNumE.inf, JsNumE.fin q =>
    if q > 0 then JsNumE.inf else if q < 0 then JsNumE.ninf else JsNumE.nan
  | JsNumE.fin q, JsNumE.inf =>
    if q > 0 then JsNumE.inf else if q < 0 then JsNumE.ninf else JsNumE.nan
  | JsNumE.ninf, JsNumE.fin q =>
    if q > 0 then JsNumE.ninf else if q < 0 then JsNumE.inf else JsNumE.nan
  | JsNumE.fin q, JsNumE.ninf =>
    if q > 0 then JsNumE.ninf else if q < 0 then JsNumE.inf else JsNumE.nan
  | JsNumE.fin a, JsNumE.fin b => JsNumE.fin (a * b)

/-- JavaScript division of two finite numbers: division by zero yields
`±Infinity`, and `0 / 0` yields NaN. -/
def jsDivQ (a b : ℚ) : JsNumE :=
  if b = 0 then
    if a > 0 then JsNumE.inf else if a < 0 then JsNumE.ninf else JsNumE.nan
  else JsNumE.fin (a / b)

/-- One step of JavaScript `Math.max`: NaN absorbs. -/
def jsMaxE (a b : JsNumE) : JsNumE :=
  if a = JsNumE.nan || b = JsNumE.nan then JsNumE.nan
  else if jsLtE a b then b else a

/-- JavaScript `Math.min` of two values: NaN absorbs. -/
def jsMinE (a b : JsNumE) : JsNumE :=
  if a = JsNumE.nan || b = JsNumE.nan then JsNumE.nan
  else if jsLtE a b then a else b

/-- A wallet token balance (src/portfolio.ts `TokenBalance`). -/
structure TokenBalance where
  mint : String
  symbol : String
  balance : ℚ
  decimals : Nat
  uiAmount : ℚ
  usdValue : ℚ
deriving DecidableEq

/-- Kind of a DeFi position (src/portfolio.ts `PortfolioPosition.type`). -/
inductive PositionKind where
  | lending
  | borrowing
  | liquidity
  | staking
deriving DecidableEq, BEq

/-- A DeFi position (src/portfolio.ts `PortfolioPosition`). -/
structure PortfolioPosition where
  protocol : String
  type : PositionKind
  token : String
  amount : ℚ
  usdValue : ℚ
  apy : Option ℚ
deriving DecidableEq

/-- Portfolio snapshot (src/portfolio.ts `PortfolioAnalytics`, without the
wall-clock `timestamp` field). -/
structure PortfolioAnalytics where
  wallet : String
  solBalance : ℚ
  solUsdValue : ℚ
  tokenBalances : List TokenBalance
  defiPositions : List PortfolioPosition
  totalUsdValue : ℚ
deriving DecidableEq

/-- `getMockTokenBalances` (src/portfolio.ts lines 261-280). -/
def getMockTokenBalances : List TokenBalance :=
  [ { mint := "4zMMC9srt5Ri5X14GAgXhaHii3GnPAEERYPJgZJDncDU", symbol := "USDC",
      balance := 5000000000, decimals := 6, uiAmount := 5000, usdValue := 5000 },
    { mint := "So11111111111111111111111111111111111111112", symbol := "SOL",
      balance := 50000000000, decimals := 9, uiAmount := 50, usdValue := 4925 } ]

/-- `getMockDefiPositions` (src/portfolio.ts lines 285-304). -/
def getMockDefiPositions : List PortfolioPosition :=
  [ { protocol := "Marginfi", type := PositionKind.lending, token := "USDC",
      amount := 2500, usdValue := 2500, apy := some 9.8 },
    { protocol := "Kamino", type := PositionKind.liquidity, token := "SOL-USDC",
      amount := 422.375, usdValue := 422.375, apy := some 12.3 } ]

/-- `getMarginfiPositions` (src/portfolio.ts lines 117-123): the Marginfi
SDK integration is disabled, so the live path always yields no positions. -/
def getMarginfiPositions : List PortfolioPosition := []

/-- Results of the chain/oracle reads in the try-block of
`getPortfolioAnalytics`: `connection.getBalance` (lamports), the priced SOL
value from the oracle, and `getTokenBalances`. -/
structure ChainFetch where
  solBalanceLamports : ℚ
  solUsdValue : ℚ
  tokenBalances : List TokenBalance

/-- Embedding of `getPortfolioAnalytics` (src/portfolio.ts lines 128-175).
`fetched` stands for the combined outcome of the awaited reads; an
`Except.error` is the caught exception, answered with the hard-coded mock
fallback record of lines 165-173. -/
def getPortfolioAnalytics (walletAddress : String) (useMock : Bool)
    (fetched : Except String ChainFetch) : PortfolioAnalytics :=
  match fetched with
  | Except.ok r =>
    let solUiAmount := r.solBalanceLamports / 1000000000
    let tokenBalances := if useMock then getMockTokenBalances else r.tokenBalances
    let defiPositions := if useMock then getMockDefiPositions else getMarginfiPositions
    let tokenUsdValue := tokenBalances.foldl (fun sum token => sum + token.usdValue) 0
    let defiUsdValue := defiPositions.foldl (fun sum pos => sum + pos.usdValue) 0
    { wallet := walletAddress
      solBalance := solUiAmount
      solUsdValue := r.solUsdValue
      tokenBalances := tokenBalances
      defiPositions := defiPositions
      totalUsdValue := r.solUsdValue + tokenUsdValue + defiUsdValue }
  | Except.error _ =>
    { wallet := walletAddress
      solBalance := 5.25
      solUsdValue := 517.125
      tokenBalances := getMockTokenBalances
      defiPositions := getMockDefiPositions
      totalUsdValue := 12847.50 }

/-- Risk level of a wallet (src/portfolio.ts `RiskScore.riskLevel`). -/
inductive RiskLevel where
  | low
  | medium
  | high
  | critical
deriving DecidableEq

/-- The `factors` record of a risk score.  `concentrationRisk` and
`liquidationRisk` are computed by divisions that can blow up, hence
extended numbers. -/
structure RiskFactors where
  healthFactor : Option ℚ
  concentrationRisk : JsNumE
  liquidationRisk : JsNumE
  protocolDiversification : ℚ
deriving DecidableEq

/-- Risk score of a wallet (src/portfolio.ts `RiskScore`, without the
wall-clock `timestamp` field). -/
structure RiskScore where
  wallet : String
  overallScore : JsNumE
  riskLevel : RiskLevel
  factors : RiskFactors
  warnings : List String
deriving DecidableEq

/-- The health-factor term of the composite score (src/portfolio.ts line
229): `healthFactor ? Math.max(0, (2 - healthFactor) * 50) : 10`.  The
ternary tests JavaScript truthiness, so an absent health factor AND a
health factor equal to 0 both fall to the fixed 10. -/
def healthFactorTerm (healthFactor : Option ℚ) : ℚ :=
  match healthFactor with
  | some h => if h ≠ 0 then jsMaxQ 0 ((2 - h) * 50) else 10
  | none => 10

/-- The scoring body of `calculateRiskScore` (src/portfolio.ts lines
186-251), factored over the portfolio snapshot and the local `healthFactor`
variable (declared at line 188 and never assigned, so every source call
site passes `none`). -/
def calculateRiskScoreCore (portfolio : PortfolioAnalytics)
    (healthFactor : Option ℚ) : RiskScore :=
  let totalValue := portfolio.totalUsdValue
  let concentrations := portfolio.tokenBalances.map (fun token => jsDivQ token.usdValue totalValue)
  let maxConcentration := (concentrations ++ [JsNumE.fin 0]).foldl jsMaxE JsNumE.ninf
  let concentrationRisk := jsMul maxConcentration (JsNumE.fin 100)
  let concentrationWarnings :=
    if jsLtE (JsNumE.fin 0.7) maxConcentration then
      ["High concentration risk: Over 70% in single asset"]
    else []
  let borrowedPositions := portfolio.defiPositions.filter (fun p => p.type == PositionKind.borrowing)
  let totalBorrowed := borrowedPositions.foldl (fun sum p => sum + p.usdValue) 0
  let liquidationRisk :=
    if totalBorrowed > 0 then jsMul (jsDivQ totalBorrowed totalValue) (JsNumE.fin 100)
    else JsNumE.fin 0
  let liquidationWarnings :=
    if jsLtE (JsNumE.fin 50) liquidationRisk then
      ["High liquidation risk: Borrowed amount exceeds 50% of portfolio"]
    else []
  let uniqueProtocols := (portfolio.defiPositions.map (fun p => p.protocol)).eraseDups
  let protocolDiversification :=
    if uniqueProtocols.length > 0 then (100 : ℚ) / uniqueProtocols.length else 100
  let protocolWarnings :=
    if uniqueProtocols.length == 1 && portfolio.defiPositions.length > 0 then
      ["Single protocol exposure - consider diversification"]
    else []
  let overallScore :=
    jsMinE (JsNumE.fin 100)
      (jsAdd
        (jsAdd
          (jsAdd (jsMul concentrationRisk (JsNumE.fin 0.3))
                 (jsMul liquidationRisk (JsNumE.fin 0.4)))
          (JsNumE.fin (protocolDiversification * 0.2)))
        (JsNumE.fin (healthFactorTerm healthFactor)))
  let riskLevel :=
    if jsLtE overallScore (JsNumE.fin 25) then RiskLevel.low
    else if jsLtE overallScore (JsNumE.fin 50) then RiskLevel.medium
    else if jsLtE overallScore (JsNumE.fin 75) then RiskLevel.high
    else RiskLevel.critical
  { wallet := portfolio.wallet
    overallScore := overallScore
    riskLevel := riskLevel
    factors :=
      { healthFactor := healthFactor
        concentrationRisk := concentrationRisk
        liquidationRisk := liquidationRisk
        protocolDiversification := protocolDiversification }
    warnings := concentrationWarnings ++ liquidationWarnings ++ protocolWarnings }

/-- `getMockRiskScore` (src/portfolio.ts lines 309-323). -/
def getMockRiskScore (walletAddress : String) : RiskScore :=
  { wallet := walletAddress
    overallScore := JsNumE.fin 32
    riskLevel := RiskLevel.medium
    factors :=
      { healthFactor := some 2.15
        concentrationRisk := JsNumE.fin 38.5
        liquidationRisk := JsNumE.fin 19.5
        protocolDiversification := 50 }
    warnings := [] }

/-- Embedding of `calculateRiskScore` (src/portfolio.ts lines 180-256):
the try-block obtains a portfolio and scores it (with the never-assigned
`healthFactor` local, i.e. `none`); the catch-block answers any thrown
error with the fabricated mock risk score. -/
def calculateRiskScore (walletAddress : String)
    (portfolioResult : Except String PortfolioAnalytics) : RiskScore :=
  match portfolioResult with
  | Except.ok portfolio => calculateRiskScoreCore portfolio none
  | Except.error _ => getMockRiskScore walletAddress

/-- Category of a yield opportunity (src/yield.ts `YieldOpportunity.type`). -/
inductive YieldCategory where
  | lending
  | staking
  | liquidity
deriving DecidableEq

/-- Risk tier of a yield opportunity (src/yield.ts
`YieldOpportunity.riskLevel`). -/
inductive RiskTier where
  | low
  | medium
  | high
deriving DecidableEq

/-- A yield opportunity (src/yield.ts `YieldOpportunity`). -/
structure YieldOpportunity where
  protocol : String
  token : String
  apy : ℚ
  tvl : Option ℚ
  type : YieldCategory
  vault : Option String
  riskLevel : Option RiskTier
deriving DecidableEq

/-- Provenance of an aggregated result (src/yield.ts
`BestYieldResponse.source`). -/
inductive YieldSource where
  | live
  | cached
  | mock
deriving DecidableEq

/-- Aggregated result (src/yield.ts `BestYieldResponse`, without the
wall-clock `timestamp` field). -/
structure BestYieldResponse where
  topOpportunities : List YieldOpportunity
  source : YieldSource
deriving DecidableEq

/-- JavaScript `a || b` on a possibly-undefined number field: `undefined`
and `0` are both falsy. -/
def jsOrNum (a : Option ℚ) (b : ℚ) : ℚ :=
  match a with
  | some x => if x = 0 then b else x
  | none => b

/-- JavaScript `a || b` on a possibly-undefined string field: `undefined`
and the empty string are both falsy. -/
def jsOrStr (a : Option String) (b : String) : String :=
  match a with
  | some s => if s = "" then b else s
  | none => b

/-- `getMockKaminoYields` (src/yield.ts lines 195-225). -/
def getMockKaminoYields : List YieldOpportunity :=
  [ { protocol := "Kamino", token := "SOL", apy := 7.85, tvl := some 15420000,
      type := YieldCategory.liquidity, vault := some "SOL-USDC Concentrated Liquidity",
      riskLevel := some RiskTier.low },
    { protocol := "Kamino", token := "USDC", apy := 12.3, tvl := some 8750000,
      type := YieldCategory.lending, vault := some "USDC Lending Vault",
      riskLevel := some RiskTier.low },
    { protocol := "Kamino", token := "JUP", apy := 18.5, tvl := some 2100000,
      type := YieldCategory.liquidity, vault := some "JUP-SOL Auto-Compound",
      riskLevel := some RiskTier.medium } ]

/-- `getMockMarginfiYields` (src/yield.ts lines 230-257). -/
def getMockMarginfiYields : List YieldOpportunity :=
  [ { protocol := "Marginfi", token := "SOL", apy := 6.2, tvl := some 12300000,
      type := YieldCategory.lending, vault := none, riskLevel := some RiskTier.low },
    { protocol := "Marginfi", token := "USDC", apy := 9.8, tvl := some 18500000,
      type := YieldCategory.lending, vault := none, riskLevel := some RiskTier.low },
    { protocol := "Marginfi", token := "USDT", apy := 9.5, tvl := some 6200000,
      type := YieldCategory.lending, vault := none, riskLevel := some RiskTier.low } ]

/-- `getMockDriftYields` (src/yield.ts lines 262-289). -/
def getMockDriftYields : List YieldOpportunity :=
  [ { protocol := "Drift", token := "SOL", apy := 5.8, tvl := some 9800000,
      type := YieldCategory.lending, vault := none, riskLevel := some RiskTier.medium },
    { protocol := "Drift", token := "USDC", apy := 11.2, tvl := some 14200000,
      type := YieldCategory.lending, vault := none, riskLevel := some RiskTier.medium },
    { protocol := "Drift", token := "BTC", apy := 4.5, tvl := some 3500000,
      type := YieldCategory.lending, vault := none, riskLevel := some RiskTier.medium } ]

/-- A raw strategy object as returned by the Kamino HTTP API; alias fields
may each be absent. -/
structure KaminoStrategy where
  apy : Option ℚ
  aprLatest : Option ℚ
  symbol : Option String
  tokenSymbol : Option String
  tvl : Option ℚ
  name : Option String
  strategyName : Option String

/-- Embedding of `fetchKaminoYields` (src/yield.ts lines 29-62).
`response` is the result of the HTTP GET, `Except.error` covering both an
error response and a timeout; either degrades to the static fallback
table, as does a response from which no opportunity with positive APY is
extracted. -/
def fetchKaminoYields (response : Except String (List KaminoStrategy)) : List YieldOpportunity :=
  match response with
  | Except.error _ => getMockKaminoYields
  | Except.ok strategies =>
    let opportunities := (strategies.take 10).filterMap (fun strategy =>
      let apy := jsOrNum strategy.apy (jsOrNum strategy.aprLatest 0)
      if apy > 0 then
        some
          { protocol := "Kamino"
            token := jsOrStr strategy.symbol (jsOrStr strategy.tokenSymbol "LP")
            apy := apy * 100
            tvl := some (jsOrNum strategy.tvl 0)
            type := YieldCategory.liquidity
            vault := some (jsOrStr strategy.name (jsOrStr strategy.strategyName "Strategy"))
            riskLevel := some
              (if jsOrNum strategy.tvl 0 > 1000000 then RiskTier.low
               else if jsOrNum strategy.tvl 0 > 100000 then RiskTier.medium
               else RiskTier.high) }
      else none)
    if opportunities.length > 0 then opportunities else getMockKaminoYields

/-- Embedding of `fetchMarginfiYields` (src/yield.ts lines 67-70): the
Marginfi SDK integration is disabled and the static table is returned
directly, without any fallible call. -/
def fetchMarginfiYields : List YieldOpportunity := getMockMarginfiYields

/-- A spot market account as exposed by the Drift SDK; balances are `BN`
objects that may be absent. -/
structure DriftMarket where
  depositBalance : Option ℚ
  borrowBalance : Option ℚ
  name : Option String

/-- Embedding of `fetchDriftYields` (src/yield.ts lines 75-123).  `result`
is the outcome of subscribing and reading the spot markets; a thrown error
degrades to the static fallback table.  A present `BN` balance is truthy
(even when zero), so `market.depositBalance ? Number(...) : 0` is
`Option.getD`-like. -/
def fetchDriftYields (result : Except String (List DriftMarket)) : List YieldOpportunity :=
  match result with
  | Except.error _ => getMockDriftYields
  | Except.ok markets =>
    (markets.take 5).filterMap (fun market =>
      let depositBalance := match market.depositBalance with | some x => x | none => 0
      let borrowBalance := match market.borrowBalance with | some x => x | none => 0
      if depositBalance > 0 then
        some
          { protocol := "Drift"
            token := jsOrStr market.name "UNKNOWN"
            apy := borrowBalance / depositBalance * 15
            tvl := some depositBalance
            type := YieldCategory.lending
            vault := none
            riskLevel := some RiskTier.medium }
      else none)

/-- Insertion step of the stable descending sort: keep earlier elements
with strictly larger APY in front, and place the inserted element before
any equal-APY element that came later in the input. -/
def insertOpp (x : YieldOpportunity) : List YieldOpportunity → List YieldOpportunity
  | [] => [x]
  | y :: ys => if y.apy > x.apy then y :: insertOpp x ys else x :: y :: ys

/-- Model of `array.sort((a, b) => b.apy - a.apy)`: since ES2019,
`Array.prototype.sort` is required to be stable, so the result is the
unique descending-by-APY ordering that keeps equal-APY elements in input
order, which this stable insertion sort computes. -/
def sortByApyDesc : List YieldOpportunity → List YieldOpportunity
  | [] => []
  | x :: xs => insertOpp x (sortByApyDesc xs)

/-- The merged `allOpportunities` array of `getBestYields` (src/yield.ts
lines 153-163): the three provider fetches run under `Promise.allSettled`;
each fetch catches its own errors and so always fulfills, contributing its
(possibly fallback) list. -/
def allYieldOpportunities (kamino : Except String (List KaminoStrategy))
    (drift : Except String (List DriftMarket)) : List YieldOpportunity :=
  fetchKaminoYields kamino ++ fetchMarginfiYields ++ fetchDriftYields drift

/-- Embedding of `getBestYields` (src/yield.ts lines 128-190).  The
`useMock` branch is built purely from the static tables; otherwise the
merged provider results are sorted by APY descending and truncated to 10,
and `source` is `live` exactly when the merged array is non-empty.  (The
outer catch-block of the source is unreachable: the awaited
`Promise.allSettled` and the list operations do not throw.) -/
def getBestYields (useMock : Bool) (kamino : Except String (List KaminoStrategy))
    (drift : Except String (List DriftMarket)) : BestYieldResponse :=
  if useMock then
    { topOpportunities :=
        (sortByApyDesc (getMockKaminoYields ++ getMockMarginfiYields ++ getMockDriftYields)).take 10
      source := YieldSource.mock }
  else
    { topOpportunities := (sortByApyDesc (allYieldOpportunities kamino drift)).take 10
      source :=
        if (allYieldOpportunities kamino drift).length > 0 then YieldSource.live
        else YieldSource.mock }

lemma foldl_add_map_sum {α : Type} (f : α → ℚ) :
    ∀ (l : List α) (a : ℚ), List.foldl (fun s t => s + f t) a l = a + (l.map f).sum := by
  intro l
  induction l with
  | nil => intro a; simp
  | cons x xs ih => intro a; simp [ih]; ring

lemma insertOpp_length (x : YieldOpportunity) :
    ∀ l : List YieldOpportunity, (insertOpp x l).length = l.length + 1 := by
  intro l
  induction l with
  | nil => rfl
  | cons y ys ih =>
    unfold insertOpp
    by_cases hy : y.apy > x.apy
    · simp [hy, ih]
    · simp [hy]

lemma sortByApyDesc_length : ∀ l : List YieldOpportunity, (sortByApyDesc l).length = l.length := by
  intro l
  induction l with
  | nil => rfl
  | cons x xs ih => simp [sortByApyDesc, insertOpp_length, ih]

lemma take10_sort_ne_nil (l : List YieldOpportunity) (hl : 0 < l.length) :
    (sortByApyDesc l).take 10 ≠ [] := by
  have h2 : 0 < (sortByApyDesc l).length := by rw [sortByApyDesc_length]; exact hl
  cases hs : sortByApyDesc l with
  | nil => rw [hs] at h2; simp at h2
  | cons x xs =>
    intro heq
    have hlen := congrArg List.length heq
    rw [List.length_take] at hlen
    simp at hlen

lemma allYieldOpportunities_length_pos (k : Except String (List KaminoStrategy))
    (d : Except String (List DriftMarket)) : 0 < (allYieldOpportunities k d).length := by
  unfold allYieldOpportunities
  rw [List.length_append, List.length_append]
  have h : fetchMarginfiYields.length = 3 := rfl
  omega

lemma getBestYields_source_live (k : Except String (List KaminoStrategy))
    (d : Except String (List DriftMarket)) :
    (getBestYields false k d).source = YieldSource.live := by
  show (if (allYieldOpportunities k d).length > 0 then YieldSource.live else YieldSource.mock)
      = YieldSource.live
  rw [if_pos (allYieldOpportunities_length_pos k d)]

/-- C10: `calculateRiskScore` is total; whenever the portfolio step throws,
it returns the fixed fabricated score for the requested wallet — overall
score 32, risk level medium, health factor 2.15, empty warnings — a value
of the same `RiskScore` shape as a genuinely computed one. -/
theorem c10_riskScore_error_fallback :
    ∀ (walletAddress e : String),
      calculateRiskScore walletAddress (Except.error e) = getMockRiskScore walletAddress
      ∧ (getMockRiskScore walletAddress).overallScore = JsNumE.fin 32
      ∧ (getMockRiskScore walletAddress).riskLevel = RiskLevel.medium
      ∧ (getMockRiskScore walletAddress).factors.healthFactor = some 2.15
      ∧ (getMockRiskScore walletAddress).warnings = [] := by
  intro walletAddress e
  exact ⟨rfl, rfl, rfl, rfl, rfl⟩

/-- C4: on the normal path `getPortfolioAnalytics` satisfies
totalUsdValue = solUsdValue + Σ tokenBalances.usdValue + Σ defiPositions.usdValue,
but on the error-fallback path it returns the hard-coded total 12847.50
while its own components sum to 13364.50, violating the invariant. -/
theorem c4_total_invariant :
    (∀ (w : String) (useMock : Bool) (r : ChainFetch),
      (getPortfolioAnalytics w useMock (Except.ok r)).totalUsdValue =
        (getPortfolioAnalytics w useMock (Except.ok r)).solUsdValue
        + ((getPortfolioAnalytics w useMock (Except.ok r)).tokenBalances.map (fun t => t.usdValue)).sum
        + ((getPortfolioAnalytics w useMock (Except.ok r)).defiPositions.map (fun p => p.usdValue)).sum)
    ∧ (∀ (w : String) (useMock : Bool) (e : String),
      (getPortfolioAnalytics w useMock (Except.error e)).totalUsdValue = 12847.50
      ∧ (getPortfolioAnalytics w useMock (Except.error e)).solUsdValue
        + ((getPortfolioAnalytics w useMock (Except.error e)).tokenBalances.map (fun t => t.usdValue)).sum
        + ((getPortfolioAnalytics w useMock (Except.error e)).defiPositions.map (fun p => p.usdValue)).sum
        = 13364.50
      ∧ (12847.50 : ℚ) ≠ 13364.50) := by
  constructor
  · intro w useMock r
    simp [getPortfolioAnalytics, foldl_add_map_sum]
  · intro w useMock e
    refine ⟨rfl, ?_, by norm_num⟩
    simp [getPortfolioAnalytics, getMockTokenBalances, getMockDefiPositions]
    norm_num

/-- C5 counterexample: with every provider degraded to its static fallback
table (Kamino HTTP error, Marginfi hard-coded fallback, Drift SDK error),
the merged list consists purely of fallback entries, yet the result is
marked `live`, not `mock` as the claim requires. -/
theorem c5_counterexample :
    (getBestYields false (Except.error "timeout") (Except.error "timeout")).source
        = YieldSource.live
    ∧ fetchKaminoYields (Except.error "timeout") = getMockKaminoYields
    ∧ fetchMarginfiYields = getMockMarginfiYields
    ∧ fetchDriftYields (Except.error "timeout") = getMockDriftYields := by
  refine ⟨?_, rfl, rfl, rfl⟩
  decide

/-- C5 (amended): `source` is `live` iff the merged opportunity array is
non-empty, counting fallback entries; since the Marginfi branch always
contributes its 3-entry static table, every non-mock call is marked
`live`, including when every provider degraded to fallback. -/
theorem c5_source_amended :
    ∀ (k : Except String (List KaminoStrategy)) (d : Except String (List DriftMarket)),
      (getBestYields false k d).source = YieldSource.live
      ∧ ((getBestYields false k d).source = YieldSource.live
           ↔ 0 < (allYieldOpportunities k d).length) := by
  intro k d
  exact ⟨getBestYields_source_live k d,
    ⟨fun _ => allYieldOpportunities_length_pos k d, fun _ => getBestYields_source_live k d⟩⟩

/-- C7: a failing provider degrades only its own contribution: with the
Kamino fetch erroring, the merged pool is exactly Kamino's static fallback
plus the other two providers' results, the call still returns a value
(the embedding is a total function) and the returned top list is
non-empty; symmetrically for a Drift failure. -/
theorem c7_provider_failure_isolated :
    ∀ (e : String) (k : Except String (List KaminoStrategy)) (d : Except String (List DriftMarket)),
      ((getBestYields false (Except.error e) d).topOpportunities
          = (sortByApyDesc (getMockKaminoYields ++ getMockMarginfiYields ++ fetchDriftYields d)).take 10
        ∧ (getBestYields false (Except.error e) d).source = YieldSource.live
        ∧ (getBestYields false (Except.error e) d).topOpportunities ≠ [])
      ∧ ((getBestYields false k (Except.error e)).topOpportunities
          = (sortByApyDesc (fetchKaminoYields k ++ getMockMarginfiYields ++ getMockDriftYields)).take 10
        ∧ (getBestYields false k (Except.error e)).source = YieldSource.live
        ∧ (getBestYields false k (Except.error e)).topOpportunities ≠ []) := by
  intro e k d
  refine ⟨⟨rfl, getBestYields_source_live _ _, ?_⟩, ⟨rfl, getBestYields_source_live _ _, ?_⟩⟩
  · show (sortByApyDesc (allYieldOpportunities (Except.error e) d)).take 10 ≠ []
    exact take10_sort_ne_nil _ (allYieldOpportunities_length_pos _ _)
  · show (sortByApyDesc (allYieldOpportunities k (Except.error e))).take 10 ≠ []
    exact take10_sort_ne_nil _ (allYieldOpportunities_length_pos _ _)

/-- C8: `getBestYields(useMock = true)` ignores its provider inputs, so two
calls give identical results; the returned list is the explicit
9-element sequence below, hence at most 10 entries and non-increasing in
APY; and the stable sort model keeps equal-APY entries in provider
declaration order, demonstrated on a Kamino/Marginfi tie. -/
theorem c8_mock_deterministic_sorted :
    ∀ (k k2 : Except String (List KaminoStrategy)) (d d2 : Except String (List DriftMarket)),
      (getBestYields true k d).topOpportunities =
        [ { protocol := "Kamino", token := "JUP", apy := 18.5, tvl := some 2100000,
            type := YieldCategory.liquidity, vault := some "JUP-SOL Auto-Compound",
            riskLevel := some RiskTier.medium },
          { protocol := "Kamino", token := "USDC", apy := 12.3, tvl := some 8750000,
            type := YieldCategory.lending, vault := some "USDC Lending Vault",
            riskLevel := some RiskTier.low },
          { protocol := "Drift", token := "USDC", apy := 11.2, tvl := some 14200000,
            type := YieldCategory.lending, vault := none, riskLevel := some RiskTier.medium },
          { protocol := "Marginfi", token := "USDC", apy := 9.8, tvl := some 18500000,
            type := YieldCategory.lending, vault := none, riskLevel := some RiskTier.low },
          { protocol := "Marginfi", token := "USDT", apy := 9.5, tvl := some 6200000,
            type := YieldCategory.lending, vault := none, riskLevel := some RiskTier.low },
          { protocol := "Kamino", token := "SOL", apy := 7.85, tvl := some 15420000,
            type := YieldCategory.liquidity, vault := some "SOL-USDC Concentrated Liquidity",
            riskLevel := some RiskTier.low },
          { protocol := "Marginfi", token := "SOL", apy := 6.2, tvl := some 12300000,
            type := YieldCategory.lending, vault := none, riskLevel := some RiskTier.low },
          { protocol := "Drift", token := "SOL", apy := 5.8, tvl := some 9800000,
            type := YieldCategory.lending, vault := none, riskLevel := some RiskTier.medium },
          { protocol := "Drift", token := "BTC", apy := 4.5, tvl := some 3500000,
            type := YieldCategory.lending, vault := none, riskLevel := some RiskTier.medium } ]
      ∧ (getBestYields true k d).topOpportunities.length ≤ 10
      ∧ List.Chain' (fun a b => b.apy ≤ a.apy) (getBestYields true k d).topOpportunities
      ∧ getBestYields true k d = getBestYields true k2 d2
      ∧ sortByApyDesc
          [ { protocol := "Kamino", token := "TIE", apy := 5, tvl := none,
              type := YieldCategory.lending, vault := none, riskLevel := none },
            { protocol := "Marginfi", token := "TIE", apy := 5, tvl := none,
              type := YieldCategory.lending, vault := none, riskLevel := none } ]
          = [ { protocol := "Kamino", token := "TIE", apy := 5, tvl := none,
                type := YieldCategory.lending, vault := none, riskLevel := none },
              { protocol := "Marginfi", token := "TIE", apy := 5, tvl := none,
                type := YieldCategory.lending, vault := none, riskLevel := none } ] := by
  intro k k2 d d2
  have hm : (getBestYields true k d).topOpportunities =
      [ { protocol := "Kamino", token := "JUP", apy := 18.5, tvl := some 2100000,
          type := YieldCategory.liquidity, vault := some "JUP-SOL Auto-Compound",
          riskLevel := some RiskTier.medium },
        { protocol := "Kamino", token := "USDC", apy := 12.3, tvl := some 8750000,
          type := YieldCategory.lending, vault := some "USDC Lending Vault",
          riskLevel := some RiskTier.low },
        { protocol := "Drift", token := "USDC", apy := 11.2, tvl := some 14200000,
          type := YieldCategory.lending, vault := none, riskLevel := some RiskTier.medium },
        { protocol := "Marginfi", token := "USDC", apy := 9.8, tvl := some 18500000,
          type := YieldCategory.lending, vault := none, riskLevel := some RiskTier.low },
        { protocol := "Marginfi", token := "USDT", apy := 9.5, tvl := some 6200000,
          type := YieldCategory.lending, vault := none, riskLevel := some RiskTier.low },
        { protocol := "Kamino", token := "SOL", apy := 7.85, tvl := some 15420000,
          type := YieldCategory.liquidity, vault := some "SOL-USDC Concentrated Liquidity",
          riskLevel := some RiskTier.low },
        { protocol := "Marginfi", token := "SOL", apy := 6.2, tvl := some 12300000,
          type := YieldCategory.lending, vault := none, riskLevel := some RiskTier.low },
        { protocol := "Drift", token := "SOL", apy := 5.8, tvl := some 9800000,
          type := YieldCategory.lending, vault := none, riskLevel := some RiskTier.medium },
        { protocol := "Drift", token := "BTC", apy := 4.5, tvl := some 3500000,
          type := YieldCategory.lending, vault := none, riskLevel := some RiskTier.medium } ] := by
    show (sortByApyDesc (getMockKaminoYields ++ getMockMarginfiYields ++ getMockDriftYields)).take 10
        = _
    norm_num [getMockKaminoYields, getMockMarginfiYields, getMockDriftYields,
      sortByApyDesc, insertOpp]
  refine ⟨hm, ?_, ?_, rfl, ?_⟩
  · rw [hm]; norm_num
  · rw [hm]; norm_num [List.chain'_cons]
  · norm_num [sortByApyDesc, insertOpp]

/-- Concrete `tx.meta` for the C2 counterexample: a successful transaction
whose only asset transfer into the recipient ATA is 5000000 units. -/
def txDemoMeta : TxMeta :=
  { err := false
    postTokenBalances := [{ accountIndex := 0, mint := "UsdcMintDemo", uiTokenAmountValue := 5000000 }]
    preTokenBalances := [] }

/-- Concrete transaction for the C2 counterexample. -/
def txDemo : TxRecord :=
  { meta := some txDemoMeta
    accountKeys := fun n => if n = 0 then some "RecipientAtaDemo" else none }

/-- C2 counterexample: the transaction holds a record matching the
recipient's ATA and the configured asset (so the claim's fallback case (b)
"no matching record found" does not apply), the received delta 5000000 is
far outside the 1000-unit tolerance of the expected 50000 (so case (a)
does not apply), yet `verifyPayment` returns true — the claim's
"exactly when (a) or (b)" is false at this input. -/
theorem c2_counterexample :
    verifyPayment (Except.ok (some txDemo)) (Except.ok "RecipientAtaDemo")
        "UsdcMintDemo" 50000 = true
    ∧ txDemoMeta.postTokenBalances.any
        (postMatchesRecipientAsset "UsdcMintDemo" txDemo.accountKeys "RecipientAtaDemo") = true
    ∧ txDemoMeta.postTokenBalances.any (fun post =>
        postMatchesRecipientAsset "UsdcMintDemo" txDemo.accountKeys "RecipientAtaDemo" post
        && postWithinTolerance 50000 txDemoMeta post) = false := by
  refine ⟨?_, ?_, ?_⟩
  · simp [verifyPayment, txDemo, txDemoMeta]
  · norm_num [txDemoMeta, txDemo, postMatchesRecipientAsset]
  · norm_num [txDemoMeta, txDemo, postMatchesRecipientAsset, postWithinTolerance,
      amountReceived, jsAbsQ]

/-- C2 (amended): `verifyPayment` returns true exactly when the fetched
transaction exists with metadata, its execution outcome is not an error,
and ATA resolution succeeds — the balance-record scan can only confirm
early, never reject (the trailing demo fallback accepts even when the
matching recipient-asset record's amount is outside tolerance, or when no
record matches at all); it returns false only when the transaction is
missing or failed, or the ledger query or ATA resolution throws. -/
theorem c2_verifyPayment_amended :
    ∀ (txResult : Except String (Option TxRecord)) (ataResult : Except String String)
      (usdcMint : String) (expectedAmount : ℚ),
      verifyPayment txResult ataResult usdcMint expectedAmount = true ↔
        ((∃ tx meta, txResult = Except.ok (some tx) ∧ tx.meta = some meta ∧ meta.err = false)
         ∧ ∃ ata, ataResult = Except.ok ata) := by
  intro txResult ataResult usdcMint expectedAmount
  constructor
  · intro h
    rcases txResult with e | otx
    · simp [verifyPayment] at h
    rcases otx with _ | tx
    · simp [verifyPayment] at h
    rcases tx with ⟨mopt, keys⟩
    rcases mopt with _ | meta
    · simp [verifyPayment] at h
    rcases meta with ⟨err, posts, pres⟩
    rcases err with _ | _
    · rcases ataResult with e2 | ata
      · simp [verifyPayment] at h
      · exact ⟨⟨⟨some ⟨false, posts, pres⟩, keys⟩, ⟨false, posts, pres⟩, rfl, rfl, rfl⟩, ata, rfl⟩
    · simp [verifyPayment] at h
  · rintro ⟨⟨tx, meta, rfl, hmeta, herr⟩, ata, rfl⟩
    rcases tx with ⟨mopt, keys⟩
    cases hmeta
    simp [verifyPayment, herr]

/-- Zero-total portfolio that still carries a token-balance entry, for the
C3 counterexample. -/
def zeroTokenPortfolio : PortfolioAnalytics :=
  { wallet := "wallet", solBalance := 0, solUsdValue := 0
    tokenBalances := [{ mint := "SomeMint", symbol := "TOK", balance := 0,
                        decimals := 6, uiAmount := 0, usdValue := 0 }]
    defiPositions := [], totalUsdValue := 0 }

/-- C3 counterexample: on a snapshot with totalUsdValue = 0 that contains a
token-balance entry, the concentration ratio is 0/0 = NaN, which
propagates through `Math.max` into the returned concentrationRisk — not
the 0 the claim requires. -/
theorem c3_counterexample :
    zeroTokenPortfolio.totalUsdValue = 0
    ∧ (calculateRiskScoreCore zeroTokenPortfolio none).factors.concentrationRisk = JsNumE.nan
    ∧ JsNumE.nan ≠ JsNumE.fin 0 := by
  refine ⟨rfl, ?_, by simp⟩
  norm_num [calculateRiskScoreCore, zeroTokenPortfolio, jsDivQ, jsMaxE, jsMul, jsLtE]

/-- Empty portfolio with zero total value. -/
def emptyPortfolio : PortfolioAnalytics :=
  { wallet := "wallet", solBalance := 0, solUsdValue := 0
    tokenBalances := [], defiPositions := [], totalUsdValue := 0 }

/-- C3 (amended): with totalUsdValue = 0 the two ratio-based factors are 0
only because of the shapes the zero-total case takes in practice: an empty
token-balance list makes `Math.max(...[], 0)` return 0, and a non-positive
borrowed total takes the 0 branch of the ternary.  (A zero-total snapshot
with a token-balance entry instead yields NaN — see the counterexample —
so division by zero is not guarded in general.) -/
theorem c3_zero_total_amended :
    ∀ (p : PortfolioAnalytics) (hf : Option ℚ),
      p.totalUsdValue = 0 →
      p.tokenBalances = [] →
      (p.defiPositions.filter (fun q => q.type == PositionKind.borrowing)).foldl
          (fun sum q => sum + q.usdValue) 0 ≤ 0 →
      (calculateRiskScoreCore p hf).factors.concentrationRisk = JsNumE.fin 0
      ∧ (calculateRiskScoreCore p hf).factors.liquidationRisk = JsNumE.fin 0 := by
  intro p hf htot htb hbor
  have hbor2 : ¬ ((p.defiPositions.filter (fun q => q.type == PositionKind.borrowing)).foldl
      (fun sum q => sum + q.usdValue) 0 > 0) := not_lt.mpr hbor
  have hmax : jsMaxE JsNumE.ninf (JsNumE.fin 0) = JsNumE.fin 0 := rfl
  have hmul : ∀ a b : ℚ, jsMul (JsNumE.fin a) (JsNumE.fin b) = JsNumE.fin (a * b) :=
    fun a b => rfl
  constructor
  · simp [calculateRiskScoreCore, htb, hmax, hmul]
  · simp [calculateRiskScoreCore, hbor2]

/-- C3 witness: the amended statement holds at the concrete empty
zero-value portfolio. -/
theorem c3_witness :
    (calculateRiskScoreCore emptyPortfolio none).factors.concentrationRisk = JsNumE.fin 0
    ∧ (calculateRiskScoreCore emptyPortfolio none).factors.liquidationRisk = JsNumE.fin 0 :=
  c3_zero_total_amended emptyPortfolio none rfl rfl (by simp [emptyPortfolio])

/-- C6 (amended): the returned overallScore is
min(100, concentrationRisk×0.3 + liquidationRisk×0.4 +
protocolDiversification×0.2 + healthFactorTerm), where healthFactorTerm is
`Math.max(0, (2 − healthFactor) × 50)` when healthFactor is present and
nonzero, and 10 when it is absent or equal to 0 (the source tests
JavaScript truthiness, so 0 falls to the neutral 10); riskLevel is low,
medium, high, critical by the strict thresholds 25, 50, 75 on the score. -/
theorem c6_overallScore_amended :
    ∀ (p : PortfolioAnalytics) (hf : Option ℚ),
      (calculateRiskScoreCore p hf).overallScore =
        jsMinE (JsNumE.fin 100)
          (jsAdd
            (jsAdd
              (jsAdd
                (jsMul (calculateRiskScoreCore p hf).factors.concentrationRisk (JsNumE.fin 0.3))
                (jsMul (calculateRiskScoreCore p hf).factors.liquidationRisk (JsNumE.fin 0.4)))
              (JsNumE.fin ((calculateRiskScoreCore p hf).factors.protocolDiversification * 0.2)))
            (JsNumE.fin (healthFactorTerm hf)))
      ∧ healthFactorTerm none = 10
      ∧ (∀ h : ℚ, h ≠ 0 → healthFactorTerm (some h) = jsMaxQ 0 ((2 - h) * 50))
      ∧ healthFactorTerm (some 0) = 10
      ∧ ((calculateRiskScoreCore p hf).riskLevel = RiskLevel.low
           ↔ jsLtE (calculateRiskScoreCore p hf).overallScore (JsNumE.fin 25) = true)
      ∧ ((calculateRiskScoreCore p hf).riskLevel = RiskLevel.medium
           ↔ (jsLtE (calculateRiskScoreCore p hf).overallScore (JsNumE.fin 25) = false
              ∧ jsLtE (calculateRiskScoreCore p hf).overallScore (JsNumE.fin 50) = true))
      ∧ ((calculateRiskScoreCore p hf).riskLevel = RiskLevel.high
           ↔ (jsLtE (calculateRiskScoreCore p hf).overallScore (JsNumE.fin 25) = false
              ∧ jsLtE (calculateRiskScoreCore p hf).overallScore (JsNumE.fin 50) = false
              ∧ jsLtE (calculateRiskScoreCore p hf).overallScore (JsNumE.fin 75) = true))
      ∧ ((calculateRiskScoreCore p hf).riskLevel = RiskLevel.critical
           ↔ (jsLtE (calculateRiskScoreCore p hf).overallScore (JsNumE.fin 25) = false
              ∧ jsLtE (calculateRiskScoreCore p hf).overallScore (JsNumE.fin 50) = false
              ∧ jsLtE (calculateRiskScoreCore p hf).overallScore (JsNumE.fin 75) = false)) := by
  intro p hf
  have hrl : (calculateRiskScoreCore p hf).riskLevel =
      (if jsLtE (calculateRiskScoreCore p hf).overallScore (JsNumE.fin 25) then RiskLevel.low
       else if jsLtE (calculateRiskScoreCore p hf).overallScore (JsNumE.fin 50) then RiskLevel.medium
       else if jsLtE (calculateRiskScoreCore p hf).overallScore (JsNumE.fin 75) then RiskLevel.high
       else RiskLevel.critical) := rfl
  refine ⟨rfl, rfl, ?_, rfl, ?_, ?_, ?_, ?_⟩
  · intro h hne
    simp [healthFactorTerm, hne]
  all_goals
    cases h25 : jsLtE (calculateRiskScoreCore p hf).overallScore (JsNumE.fin 25) <;>
      cases h50 : jsLtE (calculateRiskScoreCore p hf).overallScore (JsNumE.fin 50) <;>
        cases h75 : jsLtE (calculateRiskScoreCore p hf).overallScore (JsNumE.fin 75) <;>
          simp [hrl, h25, h50, h75]

/-- Portfolio holding only priced native balance, for the C6
counterexample. -/
def solOnlyPortfolio : PortfolioAnalytics :=
  { wallet := "wallet", solBalance := 1, solUsdValue := 100
    tokenBalances := [], defiPositions := [], totalUsdValue := 100 }

/-- C6 counterexample: with healthFactor present and equal to 0 the code's
truthiness test contributes the neutral 10, giving overallScore 30 on this
portfolio, while the claim's formula `max(0, (2 − 0) × 50) = 100` would
drive the score to 100 — so the claimed equation fails at healthFactor = 0. -/
theorem c6_counterexample :
    (calculateRiskScoreCore solOnlyPortfolio (some 0)).overallScore = JsNumE.fin 30
    ∧ jsMinE (JsNumE.fin 100)
        (jsAdd
          (jsAdd
            (jsAdd
              (jsMul (calculateRiskScoreCore solOnlyPortfolio (some 0)).factors.concentrationRisk
                (JsNumE.fin 0.3))
              (jsMul (calculateRiskScoreCore solOnlyPortfolio (some 0)).factors.liquidationRisk
                (JsNumE.fin 0.4)))
            (JsNumE.fin
              ((calculateRiskScoreCore solOnlyPortfolio (some 0)).factors.protocolDiversification
                * 0.2)))
          (JsNumE.fin (jsMaxQ 0 ((2 - 0) * 50)))) = JsNumE.fin 100
    ∧ JsNumE.fin 30 ≠ JsNumE.fin 100 := by
  have hmax : jsMaxE JsNumE.ninf (JsNumE.fin 0) = JsNumE.fin 0 := rfl
  have hfactors : (calculateRiskScoreCore solOnlyPortfolio (some 0)).factors =
      { healthFactor := some 0, concentrationRisk := JsNumE.fin (0 * 100),
        liquidationRisk := JsNumE.fin 0, protocolDiversification := 100 } := rfl
  refine ⟨?_, ?_, by simp⟩
  · show jsMinE (JsNumE.fin 100)
        (jsAdd
          (jsAdd
            (jsAdd (jsMul (JsNumE.fin (0 * 100)) (JsNumE.fin 0.3))
              (jsMul (JsNumE.fin 0) (JsNumE.fin 0.4)))
            (JsNumE.fin ((100 : ℚ) * 0.2)))
          (JsNumE.fin (healthFactorTerm (some 0)))) = JsNumE.fin 30
    norm_num [jsMul, jsAdd, jsMinE, jsLtE, healthFactorTerm]
    rintro (h | h) <;> exact JsNumE.noConfusion h
  · rw [hfactors]
    norm_num [jsMul, jsAdd, jsMinE, jsLtE, jsMaxQ]
    rintro (h | h) <;> exact JsNumE.noConfusion h

/-- C6 witness: the amended health-factor clause evaluated at the concrete
present, nonzero health factor 1 gives `Math.max(0, (2 − 1) × 50)`. -/
theorem c6_witness : healthFactorTerm (some 1) = jsMaxQ 0 ((2 - (1 : ℚ)) * 50) :=
  (c6_overallScore_amended solOnlyPortfolio (some 1)).2.2.1 1 (by norm_num)

/-- C1: with the test-mode bypass disabled, the middleware returns
MissingProof (402) when no header is present; MalformedProof (400) when
the header does not parse (either JSON.parse throws or the parsed value is
the literal null/undefined); InsufficientAmount (402) when the parsed
amount compares less than the required amount; WrongRecipient (400) when
the amount check passes but the recipient differs from the configured
wallet; ChainVerificationFailed when only the ledger check fails; and for
a numeric amount and string recipient it returns Authorized iff
amount ≥ required ∧ recipient = configured wallet ∧ ledger verification
succeeds. -/
theorem c1_requirePayment_branches
    (verify : JsValue → ℚ → String → Bool) (jsonParse : String → Option JsValue)
    (recipientWallet : String) (now requiredAmount : ℚ) :
    (requirePayment verify jsonParse recipientWallet now requiredAmount false none
        = Outcome.MissingProof
      ∧ statusOf Outcome.MissingProof = 402)
    ∧ (∀ h, h ≠ "" → jsonParse h = none →
        requirePayment verify jsonParse recipientWallet now requiredAmount false (some h)
            = Outcome.MalformedProof
        ∧ statusOf Outcome.MalformedProof = 400)
    ∧ (∀ h v, h ≠ "" → jsonParse h = some v → parseX402Header now v = none →
        requirePayment verify jsonParse recipientWallet now requiredAmount false (some h)
            = Outcome.MalformedProof)
    ∧ (∀ h v payment, h ≠ "" → jsonParse h = some v → parseX402Header now v = some payment →
        jsLt payment.amount requiredAmount = true →
        requirePayment verify jsonParse recipientWallet now requiredAmount false (some h)
            = Outcome.InsufficientAmount
        ∧ statusOf Outcome.InsufficientAmount = 402)
    ∧ (∀ h v payment, h ≠ "" → jsonParse h = some v → parseX402Header now v = some payment →
        jsLt payment.amount requiredAmount = false →
        jsStrictEqStr payment.recipient recipientWallet = false →
        requirePayment verify jsonParse recipientWallet now requiredAmount false (some h)
            = Outcome.WrongRecipient
        ∧ statusOf Outcome.WrongRecipient = 400)
    ∧ (∀ h v payment, h ≠ "" → jsonParse h = some v → parseX402Header now v = some payment →
        jsLt payment.amount requiredAmount = false →
        jsStrictEqStr payment.recipient recipientWallet = true →
        verify payment.signature requiredAmount recipientWallet = false →
        requirePayment verify jsonParse recipientWallet now requiredAmount false (some h)
            = Outcome.ChainVerificationFailed
        ∧ statusOf Outcome.ChainVerificationFailed = 402)
    ∧ (∀ h v payment (a : ℚ) (rec : String),
        h ≠ "" → jsonParse h = some v → parseX402Header now v = some payment →
        payment.amount = JsValue.num a → payment.recipient = JsValue.str rec →
        (requirePayment verify jsonParse recipientWallet now requiredAmount false (some h)
            = Outcome.Authorized
          ↔ (requiredAmount ≤ a ∧ rec = recipientWallet
             ∧ verify payment.signature requiredAmount recipientWallet = true))) := by
  have hred : ∀ h v payment, h ≠ "" → jsonParse h = some v → parseX402Header now v = some payment →
      requirePayment verify jsonParse recipientWallet now requiredAmount false (some h) =
        (if jsLt payment.amount requiredAmount then Outcome.InsufficientAmount
         else if !(jsStrictEqStr payment.recipient recipientWallet) then Outcome.WrongRecipient
         else if verify payment.signature requiredAmount recipientWallet then Outcome.Authorized
         else Outcome.ChainVerificationFailed) := by
    intro h v payment hne hjp hpp
    simp [requirePayment, hne, hjp, hpp]
  refine ⟨⟨rfl, rfl⟩, ?_, ?_, ?_, ?_, ?_, ?_⟩
  · intro h hne hjp
    exact ⟨by simp [requirePayment, hne, hjp], rfl⟩
  · intro h v hne hjp hpp
    simp [requirePayment, hne, hjp, hpp]
  · intro h v payment hne hjp hpp hlt
    refine ⟨?_, rfl⟩
    rw [hred h v payment hne hjp hpp]
    simp [hlt]
  · intro h v payment hne hjp hpp hlt hrec
    refine ⟨?_, rfl⟩
    rw [hred h v payment hne hjp hpp]
    simp [hlt, hrec]
  · intro h v payment hne hjp hpp hlt hrec hv
    refine ⟨?_, rfl⟩
    rw [hred h v payment hne hjp hpp]
    simp [hlt, hrec, hv]
  · intro h v payment a rec hne hjp hpp hamt hrec
    rw [hred h v payment hne hjp hpp]
    by_cases hab : a < requiredAmount
    · have hlt : jsLt payment.amount requiredAmount = true := by
        rw [hamt]; simp [jsLt, hab]
      simp [hlt, not_le.mpr hab]
    · have hge : requiredAmount ≤ a := not_lt.mp hab
      have hlt : jsLt payment.amount requiredAmount = false := by
        rw [hamt]; simp [jsLt, hab]
      by_cases hrw : rec = recipientWallet
      · have hr : jsStrictEqStr payment.recipient recipientWallet = true := by
          rw [hrec]; simp [jsStrictEqStr, hrw]
        cases hv : verify payment.signature requiredAmount recipientWallet
        · simp [hlt, hr, hv]
        · simp [hlt, hr, hv, hge, hrw]
      · have hr : jsStrictEqStr payment.recipient recipientWallet = false := by
          rw [hrec]; simp [jsStrictEqStr, hrw]
        simp [hlt, hr, hrw]

/-- Paid-request payload used for the C1 witness. -/
def demoPaymentJson : JsValue :=
  JsValue.obj
    [ ("amount", JsValue.num 60000),
      ("recipient", JsValue.str "DemoWallet"),
      ("signature", JsValue.str "demo-signature") ]

/-- C1 witness: the Authorized iff-clause of the branch theorem evaluated
at a concrete overpaying proof with matching recipient and succeeding
ledger verification. -/
theorem c1_witness :
    requirePayment (fun _ _ _ => true) (fun _ => some demoPaymentJson)
        "DemoWallet" 0 50000 false (some "proof") = Outcome.Authorized := by
  have hiff :=
    (c1_requirePayment_branches (fun _ _ _ => true) (fun _ => some demoPaymentJson)
        "DemoWallet" 0 50000).2.2.2.2.2.2 "proof" demoPaymentJson
      { amount := JsValue.num 60000, token := JsValue.undefined, sender := JsValue.undefined,
        recipient := JsValue.str "DemoWallet", signature := JsValue.str "demo-signature",
        timestamp := JsValue.num 0 }
      60000 "DemoWallet" (by simp) rfl rfl rfl rfl
  exact hiff.mpr ⟨by norm_num, rfl, rfl⟩

/-- C9: any header that JSON-parses to a value other than the literal null
(or undefined, which JSON cannot produce) yields a non-null proof record,
so the middleware never answers MalformedProof for it; and when the
amount field is absent (hence undefined), the less-than comparison is
false, so the request is never classified InsufficientAmount and proceeds
to the recipient check (WrongRecipient, Authorized or
ChainVerificationFailed). -/
theorem c9_nonnull_json_never_malformed
    (verify : JsValue → ℚ → String → Bool) (jsonParse : String → Option JsValue)
    (recipientWallet : String) (now requiredAmount : ℚ) :
    ∀ h v, h ≠ "" → jsonParse h = some v → v ≠ JsValue.null → v ≠ JsValue.undefined →
      (∃ payment, parseX402Header now v = some payment)
      ∧ requirePayment verify jsonParse recipientWallet now requiredAmount false (some h)
          ≠ Outcome.MalformedProof
      ∧ (∀ payment, parseX402Header now v = some payment →
          payment.amount = JsValue.undefined →
          (requirePayment verify jsonParse recipientWallet now requiredAmount false (some h)
              ≠ Outcome.InsufficientAmount
           ∧ (requirePayment verify jsonParse recipientWallet now requiredAmount false (some h)
                = Outcome.WrongRecipient
              ∨ requirePayment verify jsonParse recipientWallet now requiredAmount false (some h)
                = Outcome.Authorized
              ∨ requirePayment verify jsonParse recipientWallet now requiredAmount false (some h)
                = Outcome.ChainVerificationFailed))) := by
  intro h v hne hjp hnn hnu
  have hparse : ∃ payment, parseX402Header now v = some payment := by
    cases v with
    | null => exact absurd rfl hnn
    | undefined => exact absurd rfl hnu
    | bool b => exact ⟨_, rfl⟩
    | num q => exact ⟨_, rfl⟩
    | str s => exact ⟨_, rfl⟩
    | obj fields => exact ⟨_, rfl⟩
  obtain ⟨payment, hpp⟩ := hparse
  have hred : requirePayment verify jsonParse recipientWallet now requiredAmount false (some h) =
      (if jsLt payment.amount requiredAmount then Outcome.InsufficientAmount
       else if !(jsStrictEqStr payment.recipient recipientWallet) then Outcome.WrongRecipient
       else if verify payment.signature requiredAmount recipientWallet then Outcome.Authorized
       else Outcome.ChainVerificationFailed) := by
    simp [requirePayment, hne, hjp, hpp]
  refine ⟨⟨payment, hpp⟩, ?_, ?_⟩
  · rw [hred]
    split_ifs <;> simp
  · intro payment2 hpp2 hamt
    have hpe : payment2 = payment := by
      rw [hpp] at hpp2
      exact (Option.some.injEq _ _ ▸ hpp2).symm
    subst hpe
    have hlt : jsLt payment2.amount requiredAmount = false := by rw [hamt]; rfl
    cases hrec : jsStrictEqStr payment2.recipient recipientWallet
    · constructor
      · rw [hred]; simp [hlt, hrec]
      · rw [hred]; simp [hlt, hrec]
    · cases hv : verify payment2.signature requiredAmount recipientWallet
      · constructor
        · rw [hred]; simp [hlt, hrec, hv]
        · rw [hred]; simp [hlt, hrec, hv]
      · constructor
        · rw [hred]; simp [hlt, hrec, hv]
        · rw [hred]; simp [hlt, hrec, hv]

/-- C9 witness: a header parsing to the empty JSON object (no fields at
all) yields a proof record, is not treated as malformed or insufficient,
and falls through to the recipient check. -/
theorem c9_witness :
    requirePayment (fun _ _ _ => true) (fun _ => some (JsValue.obj []))
        "DemoWallet" 0 50000 false (some "proof") ≠ Outcome.MalformedProof
    ∧ requirePayment (fun _ _ _ => true) (fun _ => some (JsValue.obj []))
        "DemoWallet" 0 50000 false (some "proof") ≠ Outcome.InsufficientAmount := by
  have hth :=
    c9_nonnull_json_never_malformed (fun _ _ _ => true) (fun _ => some (JsValue.obj []))
      "DemoWallet" 0 50000 "proof" (JsValue.obj []) (by simp) rfl (by simp) (by simp)
  exact ⟨hth.2.1,
    (hth.2.2
      { amount := JsValue.undefined, token := JsValue.undefined, sender := JsValue.undefined,
        recipient := JsValue.undefined, signature := JsValue.undefined,
        timestamp := JsValue.num 0 }
      rfl rfl).1⟩
